import Mathlib

/-!
Shallow embedding of the fetch-request library (src/index.ts).

JavaScript objects are modeled as insertion-ordered association lists from
string keys to a universe `JValue` of runtime values.  Property assignment,
object spread and `Object.assign` are modeled by `jset` / `jassign`; rest
destructuring by `jremove`.  The external collaborators that the source calls
into (the `qs` query-string encoder, `JSON.stringify`, `FormData`, the fetch
transport, `setTimeout` and the wall clock) are modeled explicitly where the
source depends on their behavior; each such model is documented at its
definition.  Promise pipelines are modeled by explicit `Except` results: a
resolved promise is `Except.ok`, a rejected promise carries its rejection
reason, and a synchronous throw escaping `request` is the `Except.error` of
the whole run.
-/

/-- Universe of JavaScript runtime values used by the library: `undefined`,
strings, numbers, booleans, `File` instances (opaque leaves), plain objects,
arrays, and `FormData` payloads (ordered lists of appended entries). -/
inductive JValue where
  | undef
  | str (s : String)
  | num (n : Int)
  | jbool (b : Bool)
  | file (name : String)
  | obj (fields : List (String × JValue))
  | arr (elems : List JValue)
  | formData (entries : List (String × JValue))

/-- A JavaScript object: insertion-ordered association list of properties. -/
abbrev JObj := List (String × JValue)

/-- Property read `o[k]`: the first binding of the key, if any. -/
def jget : JObj → String → Option JValue
  | [], _ => none
  | (k, v) :: rest, key => if k = key then some v else jget rest key

/-- Property read defaulting to `undefined` for a missing key. -/
def jgetD (o : JObj) (key : String) : JValue :=
  (jget o key).getD JValue.undef

/-- Property write `o[k] = v`: replace the first binding in place, or append. -/
def jset : JObj → String → JValue → JObj
  | [], key, v => [(key, v)]
  | (k, w) :: rest, key, v =>
    if k = key then (k, v) :: rest else (k, w) :: jset rest key v

/-- Model of `Object.assign(target, source)` and object spread: copy each own
property of the source onto the target, in source order, last write wins. -/
def jassign (target : JObj) : JObj → JObj
  | [] => target
  | (k, v) :: rest => jassign (jset target k v) rest

/-- Rest destructuring `let { key, ...rest } = o`: drop every binding of the key. -/
def jremove : JObj → String → JObj
  | [], _ => []
  | (k, v) :: rest, key =>
    if k = key then jremove rest key else (k, v) :: jremove rest key

mutual

/-- JavaScript string coercion of a value, as used by `+=`, template strings
and property-key lookups. -/
def jsToString : JValue → String
  | .undef => "undefined"
  | .str s => s
  | .num n => toString n
  | .jbool b => cond b "true" "false"
  | .file _ => "[object File]"
  | .obj _ => "[object Object]"
  | .formData _ => "[object FormData]"
  | .arr xs => jsToStringElems xs

/-- Array string coercion: elements coerced and joined with commas. -/
def jsToStringElems : List JValue → String
  | [] => ""
  | [x] => jsToString x
  | x :: xs => jsToString x ++ "," ++ jsToStringElems xs

end

/-- JavaScript truthiness of a value. -/
def jsTruthy : JValue → Bool
  | .undef => false
  | .str s => !(s = "")
  | .num n => !(n = 0)
  | .jbool b => b
  | _ => true

/-- Enumeration of array elements with stringified indices, as produced by
`Object.entries` on an array. -/
def enumFrom (i : Nat) : List JValue → List (String × JValue)
  | [] => []
  | x :: xs => (toString i, x) :: enumFrom (i + 1) xs

/-- Enumeration of the characters of a string with stringified indices, as
produced by `Object.entries` on a string. -/
def charEntries (i : Nat) : List Char → List (String × JValue)
  | [] => []
  | c :: cs => (toString i, JValue.str (String.singleton c)) :: charEntries (i + 1) cs

/-- Bracket key composition shared by the form-data writer and the `qs`
encoder: an empty outer key yields the inner key, otherwise outer[inner]. -/
def bracketKey (key i : String) : String :=
  if key = "" then i else key ++ "[" ++ i ++ "]"

/-- Coercion applied by `FormData.append` to a written value: `File` instances
are stored as such, every other value is stored as its string coercion. -/
def formDataLeaf : JValue → JValue
  | .file n => .file n
  | v => .str (jsToString v)

mutual

/-- Entries written for one value of the `getFormData` loop (src lines 52-61):
plain objects and arrays are split recursively under bracketed keys, a nested
`FormData` contributes nothing (the source returns it from the recursive call
and discards that return value, leaving the accumulator untouched), and every
other value, `File` included, is appended as a single leaf entry. -/
def writeItem (v : JValue) (key : String) : List (String × JValue) :=
  match v with
  | .obj fields => writeFields fields key
  | .arr xs => writeElems xs 0 key
  | .formData _ => []
  | w => [(key, formDataLeaf w)]

/-- The `for (const [i, item] of Object.entries(data))` loop over the fields
of an object, with the entries each item contributes concatenated in order. -/
def writeFields (fields : List (String × JValue)) (key : String) : List (String × JValue) :=
  match fields with
  | [] => []
  | (i, item) :: rest => writeItem item (bracketKey key i) ++ writeFields rest key

/-- The same loop over the indexed elements of an array. -/
def writeElems (xs : List JValue) (idx : Nat) (key : String) : List (String × JValue) :=
  match xs with
  | [] => []
  | x :: rest => writeItem x (bracketKey key (toString idx)) ++ writeElems rest (idx + 1) key

end

/-- Embedding of `getFormData` (src lines 50-63): a `FormData` argument is
passed through unchanged; otherwise the entries of the argument are written
into a fresh `FormData`.  `Object.entries` throws on `undefined`, so the
`undefined` argument is a synchronous `TypeError`. -/
def getFormData : JValue → Except String JValue
  | .formData es => .ok (.formData es)
  | .obj fields => .ok (.formData (writeFields fields ""))
  | .arr xs => .ok (.formData (writeElems xs 0 ""))
  | .str s => .ok (.formData (writeFields (charEntries 0 s.toList) ""))
  | .num _ => .ok (.formData [])
  | .jbool _ => .ok (.formData [])
  | .file _ => .ok (.formData [])
  | .undef => .error "TypeError: cannot convert undefined to object"

mutual

/-- Model of the external `qs` encoder on one value: key-value pairs rendered
under bracket-flattened keys.  Undefined values are skipped, as are values
with no own enumerable properties; percent-encoding of the output is elided
since no caller of the library inspects encoded characters. -/
def qsItem (v : JValue) (key : String) : List String :=
  match v with
  | .obj fields => qsFields fields key
  | .arr xs => qsElems xs 0 key
  | .undef => []
  | .file _ => []
  | .formData _ => []
  | w => [key ++ "=" ++ jsToString w]

/-- Pairs contributed by the fields of an object under a bracketed key. -/
def qsFields (fields : List (String × JValue)) (key : String) : List String :=
  match fields with
  | [] => []
  | (i, item) :: rest => qsItem item (bracketKey key i) ++ qsFields rest key

/-- Pairs contributed by the indexed elements of an array. -/
def qsElems (xs : List JValue) (idx : Nat) (key : String) : List String :=
  match xs with
  | [] => []
  | x :: rest => qsItem x (bracketKey key (toString idx)) ++ qsElems rest (idx + 1) key

end

/-- Model of `qs.stringify`: the flattened pairs of a mapping joined with
ampersands; scalars and `undefined` at top level produce the empty string. -/
def qsStringify : JValue → String
  | .obj fields => String.intercalate "&" (qsFields fields "")
  | .arr xs => String.intercalate "&" (qsElems xs 0 "")
  | _ => ""

mutual

/-- Model of the external `JSON.stringify` rendering of a defined value.
String escaping is elided; `File` and `FormData` instances render as empty
objects since they have no own enumerable properties. -/
def jsonRender : JValue → String
  | .undef => "null"
  | .str s => "\"" ++ s ++ "\""
  | .num n => toString n
  | .jbool b => cond b "true" "false"
  | .file _ => "\x7b\x7d"
  | .formData _ => "\x7b\x7d"
  | .obj fields => "\x7b" ++ String.intercalate "," (jsonFields fields) ++ "\x7d"
  | .arr xs => "[" ++ String.intercalate "," (jsonElems xs) ++ "]"

/-- Rendered members of an object; keys with `undefined` values are omitted. -/
def jsonFields : List (String × JValue) → List String
  | [] => []
  | (_, .undef) :: rest => jsonFields rest
  | (k, v) :: rest => ("\"" ++ k ++ "\":" ++ jsonRender v) :: jsonFields rest

/-- Rendered elements of an array; `undefined` elements render as null. -/
def jsonElems : List JValue → List String
  | [] => []
  | x :: rest => jsonRender x :: jsonElems rest

end

/-- Model of `JSON.stringify` as a value: `undefined` input yields
`undefined`, every other value yields its rendered string. -/
def jsonStringify : JValue → JValue
  | .undef => .undef
  | v => .str (jsonRender v)

/-- The `application` content-type table (src lines 41-44). -/
structure ApplicationTypes where
  json : String
  form : String

/-- The two recognized content types. -/
def application : ApplicationTypes :=
  { json := "application/json", form := "application/x-www-form-urlencoded" }

/-- The two serializers held by `applicationToBodyFun` (src lines 68-71). -/
inductive BodySerializer where
  | jsonFun
  | formFun

/-- Key lookup in the `applicationToBodyFun` object: defined exactly for the
two recognized content types, `undefined` for every other key. -/
def applicationToBodyFun (contentType : String) : Option BodySerializer :=
  if contentType = application.json then some .jsonFun
  else if contentType = application.form then some .formFun
  else none

/-- Application of a selected serializer to the request data. -/
def runBodySerializer : BodySerializer → JValue → JValue
  | .jsonFun, d => jsonStringify d
  | .formFun, d => .str (qsStringify d)

/-- The four casing variants probed by the content-type lookup, in the order
they appear in the source reduce (src line 83). -/
def contentTypeVariants : List String :=
  ["Content-Type", "Content-type", "content-Type", "content-type"]

/-- The value of `config.headers && config.headers[i]` for one variant key:
`undefined` unless `headers` is an object carrying the key. -/
def headerAt (config : JObj) (i : String) : JValue :=
  match jget config "headers" with
  | some (.obj h) => jgetD h i
  | _ => JValue.undef

/-- Embedding of the content-type reduce (src lines 83-85): starting from the
empty string, each variant in order replaces the accumulator when its header
value is truthy. -/
def contentTypeOf (config : JObj) : JValue :=
  contentTypeVariants.foldl
    (fun c i => if jsTruthy (headerAt config i) then headerAt config i else c)
    (JValue.str "")

/-- Strict equality test `config.method === GET` (src line 77). -/
def isGET (config : JObj) : Bool :=
  match jget config "method" with
  | some (.str "GET") => true
  | _ => false

/-- Embedding of `toBody` (src lines 76-90).  For a GET configuration the
serialized data, when nonempty, is appended to the url after a question mark;
otherwise the serializer selected by the content-type lookup produces the
body, where an unrecognized truthy content type makes the source call
`undefined` as a function, a synchronous `TypeError`. -/
def toBody (config : JObj) : Except String JObj :=
  if isGET config then
    let params := qsStringify (jgetD config "data")
    if params = "" then .ok config
    else .ok (jset config "url" (.str (jsToString (jgetD config "url") ++ "?" ++ params)))
  else
    let contentType := contentTypeOf config
    if jsTruthy contentType then
      match applicationToBodyFun (jsToString contentType) with
      | some f => .ok (jset config "body" (runBodySerializer f (jgetD config "data")))
      | none => .error "TypeError: toBodyFun is not a function"
    else
      (getFormData (jgetD config "data")).map (fun fd => jset config "body" fd)

/-- A positional argument of a generated verb: a configuration fragment or a
bare label string. -/
inductive CallArg where
  | cfg (c : JObj)
  | label (s : String)

/-- Embedding of `labelToConfig` (src lines 95-97): a bare string becomes a
one-field label fragment, an object fragment is returned unchanged. -/
def labelToConfig : CallArg → JObj
  | .cfg c => c
  | .label s => [("label", JValue.str s)]

/-- Embedding of `statisticalTime` (src lines 102-108) over two wall-clock
readings in milliseconds, the first taken when the recorder starts and the
second when it is invoked.  The source renders the readings with
`toTimeString` and the difference divided by 1000 with a seconds suffix; the
model keeps the raw readings and their signed difference, preserving field
presence and ordering. -/
def statisticalTime (startT endT : Nat) : JValue :=
  .obj [("start", .num startT), ("end", .num endT),
        ("total", .num ((endT : Int) - (startT : Int)))]

/-- The `erroText` dispatch table (src lines 113-118) as the ordered list of
its entries, the order `Object.entries` iterates them in. -/
def erroText : List (String × String) :=
  [("timeout", "网络连接超时"),
   ("Network Error", "请求地址错误"),
   ("Failed to fetch", "请求地址错误"),
   ("request:fail", "请求地址错误")]

/-- Character-list test that the second list begins with the first. -/
def leadsWith : List Char → List Char → Bool
  | [], _ => true
  | _ :: _, [] => false
  | p :: ps, c :: cs => p = c && leadsWith ps cs

/-- Occurrence of the first character list anywhere inside the second. -/
def occursIn (pat : List Char) : List Char → Bool
  | [] => leadsWith pat []
  | c :: cs => leadsWith pat (c :: cs) || occursIn pat cs

/-- Model of `new RegExp(key).test(error)` for the four dispatch keys: none of
them contains a regular-expression metacharacter, so the test is substring
occurrence. -/
def regexTest (pat s : String) : Bool :=
  occursIn pat.toList s.toList

/-- The `for ... of Object.entries(erroText)` loop of `erroToText`: the
mapped text of the first matching key, or the fallback category. -/
def erroToTextLoop : List (String × String) → String → String
  | [], _ => "其他错误"
  | (key, item) :: rest, error =>
    if regexTest key error then item else erroToTextLoop rest error

/-- Embedding of `erroToText` (src lines 123-129). -/
def erroToText (error : String) : String :=
  erroToTextLoop erroText error

/-- The built-in default request configuration (src lines 176-187). -/
def defaultConfigInit : JObj :=
  [("mode", .str "cors"),
   ("method", .str "GET"),
   ("cache", .str "default"),
   ("credentials", .str "omit"),
   ("responseType", .str "json"),
   ("headers", .obj [("Accept", .str application.json),
                     ("Content-Type", .str application.json)]),
   ("timeout", .num 5000)]

/-- The state of a `FetchRequest` instance relevant to the core pipeline.
The interceptors are kept at their identity defaults, the scope in which the
claims below quantify over the pipeline. -/
structure FetchRequest where
  host : String := ""
  apiPath : String := ""
  defaultConfig : JObj := defaultConfigInit

/-- The recognized fields of the construction-time configuration
(src lines 29-36), transport and interceptor overrides excluded. -/
structure TFetchRequestConfig where
  defaultConfig : Option JObj := none
  host : Option String := none
  apiPath : Option String := none

/-- Embedding of the constructor (src lines 226-233): the supplied
`defaultConfig` is `Object.assign`-ed over the built-in defaults, and the
remaining fields are copied onto the instance. -/
def FetchRequest.create (init : TFetchRequestConfig) : FetchRequest :=
  { host := init.host.getD "",
    apiPath := init.apiPath.getD "",
    defaultConfig := jassign defaultConfigInit (init.defaultConfig.getD []) }

/-- Embedding of the `baseURL` getter (src lines 238-240). -/
def FetchRequest.baseURL (fr : FetchRequest) : String :=
  fr.host ++ fr.apiPath

/-- The url extracted by `let { url = [], ...config } = configs` coerced to a
string: the empty string when the property is missing or `undefined`. -/
def urlOf (configs : JObj) : String :=
  match jget configs "url" with
  | none => ""
  | some .undef => ""
  | some v => jsToString v

/-- Model of the anchored scheme test `/^http/.test(url)`. -/
def testHttp (s : String) : Bool :=
  leadsWith "http".toList s.toList

/-- The url after the prefixing step of `request` (src line 249): unchanged
when it already matches `/^http/`, otherwise `baseURL` is prepended once. -/
def FetchRequest.resolveUrl (fr : FetchRequest) (configs : JObj) : String :=
  let url := urlOf configs
  if testHttp url then url else fr.baseURL ++ url

/-- The configuration handed to the request interceptor (src line 252): the
object literal spreads the resolved url first, then the instance defaults,
then the per-call configuration with its url field destructured away. -/
def FetchRequest.mergedConfig (fr : FetchRequest) (configs : JObj) : JObj :=
  jassign (jassign [("url", JValue.str (fr.resolveUrl configs))] fr.defaultConfig)
    (jremove configs "url")

/-- Behavior of one dispatched transport call: `none` when the underlying
fetch never settles, otherwise the instant, in milliseconds from dispatch, at
which it settles, together with its outcome.  A resolved outcome carries the
payload as already unwrapped by the response-type extraction step (src lines
218-223); the claims below only inspect rejected outcomes, for which no
unwrapping occurs. -/
def TransportBehavior : Type :=
  Option (Nat × Except String JValue)

/-- The settled result of `Promise.race([fetch(...), timeout])` together with
whether the timer fired `controller.abort()`. -/
structure RaceResult where
  outcome : Except String JValue
  aborted : Bool

/-- The numeric timeout handed to `setTimeout` (src line 215); a missing or
non-numeric value behaves as a zero delay. -/
def timeoutOf (config : JObj) : Nat :=
  match jget config "timeout" with
  | some (.num n) => n.toNat
  | _ => 0

/-- Model of the race (src lines 211-218): if the transport settles strictly
before the timer fires, its outcome wins untouched; otherwise the timer
aborts the controller and rejects with the sentinel string. -/
def raceWithTimeout (timeoutMs : Nat) (transport : TransportBehavior) : RaceResult :=
  match transport with
  | none => { outcome := .error "request timeout", aborted := true }
  | some (t, r) =>
    if t < timeoutMs then { outcome := r, aborted := false }
    else { outcome := .error "request timeout", aborted := true }

/-- One run of the default `requestFunction`: the configuration as dispatched
to fetch, the settled outcome of the race, and whether the controller was
aborted by the timer. -/
structure RequestFunctionRun where
  dispatched : JObj
  outcome : Except String JValue
  aborted : Bool

/-- Embedding of the default `requestFunction` (src lines 202-224): the
configuration goes through `toBody`, an abort controller signal is attached
to it, and the fetch call races the timeout timer.  A synchronous throw
inside `toBody` escapes the promise pipeline entirely and is surfaced as the
`Except.error` of the run.  The attached signal is modeled by its `aborted`
flag, which the timer flips when it fires. -/
def FetchRequest.requestFunction (transport : TransportBehavior) (config : JObj) :
    Except String RequestFunctionRun :=
  match toBody config with
  | .error e => .error e
  | .ok cfg =>
    let race := raceWithTimeout (timeoutOf cfg) transport
    .ok { dispatched := jset cfg "signal" (.obj [("aborted", .jbool race.aborted)]),
          outcome := race.outcome,
          aborted := race.aborted }

/-- Object spread `{ ...res }` of an arbitrary value: objects spread their
fields, strings their indexed characters, arrays their indexed elements;
primitives, `undefined` and entry-less instances spread nothing. -/
def spreadFields : JValue → JObj
  | .obj fields => fields
  | .arr xs => enumFrom 0 xs
  | .str s => charEntries 0 s.toList
  | _ => []

/-- The catch handler of `request` (src line 259): a rejection reason is
classified into the error envelope fields. -/
def classifyRejection (e : String) : JObj :=
  [("error", JValue.str e), ("errorText", JValue.str (erroToText e))]

/-- The observable result of one `request` call: the resolved response
envelope, whether the abort controller fired, and the configuration as
dispatched to the transport. -/
structure RequestRun where
  envelope : JObj
  aborted : Bool
  dispatched : JObj

/-- Embedding of `request` (src lines 245-261) with the identity interceptors
of the core pipeline: the per-call configuration is merged over the instance
defaults with the url resolved, the timing recorder brackets the transport
call between the two clock readings, a rejected race is classified by the
catch handler, and the envelope spreads the result over the `time` field. -/
def FetchRequest.request (fr : FetchRequest) (transport : TransportBehavior)
    (startT endT : Nat) (configs : JObj) : Except String RequestRun :=
  let config := fr.mergedConfig configs
  match FetchRequest.requestFunction transport config with
  | .error e => .error e
  | .ok run =>
    let res : JObj :=
      match run.outcome with
      | .ok v => spreadFields v
      | .error e => classifyRejection e
    .ok { envelope := jassign [("time", statisticalTime startT endT)] res,
          aborted := run.aborted,
          dispatched := run.dispatched }

/-- Embedding of the configuration built by a verb generated with
`createRequest(method, configs)` (src lines 266-270) when called as
`verb(url, data, ...args)`: `Object.assign` of the positional literal, the
seed fragment fixed at generation time when present, and each positional
argument normalized through `labelToConfig`, applied left to right.  A
missing positional `data` leaves a `data` property holding `undefined` in the
literal. -/
def createRequestConfig (method : String) (seed : Option JObj) (url : String)
    (data : Option JValue) (args : List CallArg) : JObj :=
  List.foldl jassign
    (jassign [("method", JValue.str method), ("url", JValue.str url),
              ("data", data.getD JValue.undef)]
      (seed.getD []))
    (args.map labelToConfig)

/-- The configuration built by the five plain verbs, which pass no seed;
`get` uses method GET, `post` POST, `put` PUT, `patch` PATCH, `del` DELETE
(src lines 272-276). -/
def plainVerbConfig (method : String) (url : String) (data : Option JValue)
    (args : List CallArg) : JObj :=
  createRequestConfig method none url data args

/-- The configuration built by `upload`, generated with a seed fragment that
forces an empty headers object (src line 277). -/
def uploadConfig (url : String) (data : Option JValue) (args : List CallArg) : JObj :=
  createRequestConfig "POST" (some [("headers", JValue.obj [])]) url data args

/-- Lookup of a field of the `time` object of an envelope. -/
def timeField (env : JObj) (k : String) : Option JValue :=
  match jget env "time" with
  | some (.obj t) => jget t k
  | _ => none

/-- Stated from the claim words for comparison with `contentTypeOf`: the
first variant of the list whose header value is truthy, scanning left to
right, with the empty string when none is. -/
def firstTruthyVariant (config : JObj) : List String → JValue
  | [] => .str ""
  | i :: rest =>
    if jsTruthy (headerAt config i) then headerAt config i
    else firstTruthyVariant config rest

mutual

/-- Number of leaf fields of a payload, stated from the claim words: a plain
object or array contributes the leaves of its members, a nested `FormData`
payload is skipped by the writer, and every other value is one leaf. -/
def leafCountItem : JValue → Nat
  | .obj fields => leafCountFields fields
  | .arr xs => leafCountElems xs
  | .formData _ => 0
  | _ => 1

/-- Leaf count of the fields of an object. -/
def leafCountFields : List (String × JValue) → Nat
  | [] => 0
  | (_, item) :: rest => leafCountItem item + leafCountFields rest

/-- Leaf count of the elements of an array. -/
def leafCountElems : List JValue → Nat
  | [] => 0
  | x :: rest => leafCountItem x + leafCountElems rest

end

/-- Fixture: an instance with default state, used by the resolution claims. -/
def frDefault : FetchRequest := {}

/-- Fixture for the error-path claim: a transport that rejects at once with a
network failure message. -/
def transportC1 : TransportBehavior :=
  some (0, Except.error "Network Error")

/-- Fixture for the error-path claim: a relative per-call configuration. -/
def cfgC1 : JObj := [("url", JValue.str "/x")]

/-- Fixture: the configuration the error-path run hands to the transport. -/
def mergedC1 : JObj := frDefault.mergedConfig cfgC1

/-- Fixture: the run the default transport function produces on `mergedC1`. -/
def runC1 : RequestFunctionRun :=
  (FetchRequest.requestFunction transportC1 mergedC1).toOption.getD
    { dispatched := [], outcome := Except.ok JValue.undef, aborted := false }

/-- Fixture for the timeout claim: a relative per-call configuration. -/
def cfgC9 : JObj := [("url", JValue.str "/y")]

/-- Fixture: the timeout-path configuration after body synthesis. -/
def cfgC9body : JObj :=
  (toBody (frDefault.mergedConfig cfgC9)).toOption.getD []

/-- Fixture for the content-type casing claim: a non-GET configuration whose
headers carry two casing variants of the content-type key with different
values. -/
def cfgC3 : JObj :=
  [("method", JValue.str "POST"),
   ("headers", JValue.obj
      [("Content-Type", JValue.str application.json),
       ("content-type", JValue.str application.form)]),
   ("data", JValue.obj [("a", JValue.str "1")])]

/-- Fixture for the GET serialization claim. -/
def cfgC6 : JObj :=
  [("method", JValue.str "GET"), ("url", JValue.str "/u"),
   ("data", JValue.obj [("a", JValue.num 1)])]

/-- Fixture for the multipart fallback claim: an unrecognized truthy content
type on a non-GET configuration. -/
def cfgC7bad : JObj :=
  [("method", JValue.str "POST"),
   ("headers", JValue.obj [("Content-Type", JValue.str "text/plain")]),
   ("data", JValue.obj [("a", JValue.str "1")])]

/-- Fixture for the multipart fallback claim: an upload-style configuration
with empty headers and nested data carrying a file leaf. -/
def cfgC7ok : JObj :=
  [("method", JValue.str "POST"), ("headers", JValue.obj []),
   ("data", JValue.obj
      [("outer", JValue.obj [("inner", JValue.str "v")]),
       ("f", JValue.file "f1")])]

/-- Fixture: the form payload the fallback writes for `cfgC7ok`. -/
def fdC7 : JValue :=
  (getFormData (jgetD cfgC7ok "data")).toOption.getD JValue.undef

/-- Fixture for the frame claim: a POST configuration with the default json
content type and extra passthrough fields. -/
def cfgC10 : JObj :=
  [("method", JValue.str "POST"),
   ("headers", JValue.obj [("Content-Type", JValue.str application.json)]),
   ("data", JValue.obj [("a", JValue.num 2)]),
   ("label", JValue.str "tag"), ("timeout", JValue.num 7)]

/-- Fixture: the configuration `toBody` returns for `cfgC10`. -/
def cfgC10body : JObj :=
  (toBody cfgC10).toOption.getD []

theorem jget_jset_self (o : JObj) (k : String) (v : JValue) :
    jget (jset o k v) k = some v := by
  induction o with
  | nil => simp [jset, jget]
  | cons p rest ih =>
    obtain ⟨k0, w⟩ := p
    by_cases h : k0 = k <;> simp [jset, jget, h, ih]

theorem jget_jset_ne (o : JObj) (k k2 : String) (v : JValue) (h : k2 ≠ k) :
    jget (jset o k v) k2 = jget o k2 := by
  have hne : ¬ k = k2 := fun hh => h hh.symm
  induction o with
  | nil => simp [jset, jget, hne]
  | cons p rest ih =>
    obtain ⟨k0, w⟩ := p
    by_cases h0 : k0 = k
    · subst h0
      simp [jset, jget, hne]
    · by_cases h2 : k0 = k2
      · subst h2
        simp [jset, jget, h0]
      · simp [jset, jget, h0, h2, ih]

theorem jget_eq_none_iff (o : JObj) (k : String) :
    jget o k = none ↔ k ∉ o.map Prod.fst := by
  induction o with
  | nil => simp [jget]
  | cons p rest ih =>
    obtain ⟨k0, w⟩ := p
    by_cases h : k0 = k
    · subst h
      simp [jget]
    · have h2 : ¬ k = k0 := fun hh => h hh.symm
      simp [jget, h, h2, ih]

theorem jget_jassign_not_mem (t : JObj) (s : JObj) (k : String)
    (h : k ∉ s.map Prod.fst) : jget (jassign t s) k = jget t k := by
  induction s generalizing t with
  | nil => simp [jassign]
  | cons p rest ih =>
    obtain ⟨k0, v0⟩ := p
    simp only [List.map_cons, List.mem_cons] at h
    push_neg at h
    rw [jassign, ih (jset t k0 v0) h.2, jget_jset_ne t k0 k v0 h.1]

theorem jget_jassign (t s : JObj) (k : String) (h : (s.map Prod.fst).Nodup) :
    jget (jassign t s) k = (jget s k).or (jget t k) := by
  induction s generalizing t with
  | nil => simp [jassign, jget, Option.or]
  | cons p rest ih =>
    obtain ⟨k0, v0⟩ := p
    simp only [List.map_cons, List.nodup_cons] at h
    by_cases hk : k0 = k
    · subst hk
      rw [jassign, jget_jassign_not_mem (jset t k0 v0) rest k0 h.1,
        jget_jset_self]
      simp [jget, Option.or]
    · rw [jassign, ih (jset t k0 v0) h.2, jget_jset_ne t k0 k v0 fun hh => hk hh.symm]
      simp [jget, hk]

theorem not_mem_jremove_map (o : JObj) (k : String) :
    k ∉ (jremove o k).map Prod.fst := by
  induction o with
  | nil => simp [jremove]
  | cons p rest ih =>
    obtain ⟨k0, w⟩ := p
    by_cases h : k0 = k
    · subst h
      simpa [jremove] using ih
    · have h2 : ¬ k = k0 := fun hh => h hh.symm
      simp [jremove, h, h2, ih]

theorem jget_jremove_ne (o : JObj) (k k2 : String) (h : k2 ≠ k) :
    jget (jremove o k) k2 = jget o k2 := by
  have hne : ¬ k = k2 := fun hh => h hh.symm
  induction o with
  | nil => simp [jremove]
  | cons p rest ih =>
    obtain ⟨k0, w⟩ := p
    by_cases h0 : k0 = k
    · subst h0
      simp [jremove, jget, hne, ih]
    · by_cases h2 : k0 = k2
      · subst h2
        simp [jremove, jget, h0]
      · simp [jremove, jget, h0, h2, ih]

theorem leadsWith_append (p a b : List Char) (h : leadsWith p a = true) :
    leadsWith p (a ++ b) = true := by
  induction p generalizing a with
  | nil => simp [leadsWith]
  | cons c ps ih =>
    cases a with
    | nil => simp [leadsWith] at h
    | cons c2 a2 =>
      simp only [leadsWith, Bool.and_eq_true, decide_eq_true_eq] at h
      simp only [List.cons_append, leadsWith, Bool.and_eq_true, decide_eq_true_eq]
      exact ⟨h.1, ih a2 h.2⟩

theorem testHttp_append (a b : String) (h : testHttp a = true) :
    testHttp (a ++ b) = true := by
  unfold testHttp at h ⊢
  rw [show (a ++ b).toList = a.toList ++ b.toList from by simp [String.toList]]
  exact leadsWith_append _ _ _ h

theorem erroToTextLoop_find (l : List (String × String)) (e : String) :
    erroToTextLoop l e =
      ((l.find? fun p => regexTest p.1 e).map Prod.snd).getD "其他错误" := by
  induction l with
  | nil => simp [erroToTextLoop]
  | cons p rest ih =>
    obtain ⟨key, item⟩ := p
    cases h : regexTest key e <;> simp [erroToTextLoop, List.find?, h, ih]

mutual

theorem writeItem_length (v : JValue) (key : String) :
    (writeItem v key).length = leafCountItem v := by
  cases v with
  | obj fields => rw [writeItem, leafCountItem]; exact writeFields_length fields key
  | arr xs => rw [writeItem, leafCountItem]; exact writeElems_length xs 0 key
  | formData es => simp [writeItem, leafCountItem]
  | undef => simp [writeItem, leafCountItem]
  | str s => simp [writeItem, leafCountItem]
  | num n => simp [writeItem, leafCountItem]
  | jbool b => simp [writeItem, leafCountItem]
  | file n => simp [writeItem, leafCountItem]

theorem writeFields_length (fields : List (String × JValue)) (key : String) :
    (writeFields fields key).length = leafCountFields fields := by
  cases fields with
  | nil => simp [writeFields, leafCountFields]
  | cons p rest =>
    obtain ⟨i, item⟩ := p
    rw [writeFields, leafCountFields, List.length_append,
      writeItem_length item (bracketKey key i), writeFields_length rest key]

theorem writeElems_length (xs : List JValue) (idx : Nat) (key : String) :
    (writeElems xs idx key).length = leafCountElems xs := by
  cases xs with
  | nil => simp [writeElems, leafCountElems]
  | cons x rest =>
    rw [writeElems, leafCountElems, List.length_append,
      writeItem_length x (bracketKey key (toString idx)),
      writeElems_length rest (idx + 1) key]

end

/-- C8: the error classifier holds its patterns in the declaration order
timeout, Network Error, Failed to fetch, request:fail, returns the category
of the first matching pattern, falls back to the generic other-error category
when none matches, and always returns one of the three category strings; on
an input matching several patterns the first in declaration order wins. -/
theorem erroToText_first_match :
    erroText = [("timeout", "网络连接超时"), ("Network Error", "请求地址错误"),
      ("Failed to fetch", "请求地址错误"), ("request:fail", "请求地址错误")]
    ∧ (∀ e, erroToText e =
        ((erroText.find? fun p => regexTest p.1 e).map Prod.snd).getD "其他错误")
    ∧ (∀ e, (∀ p ∈ erroText, regexTest p.1 e = false) → erroToText e = "其他错误")
    ∧ (∀ e, erroToText e = "网络连接超时" ∨ erroToText e = "请求地址错误"
        ∨ erroToText e = "其他错误")
    ∧ erroToText "request timeout by Network Error" = "网络连接超时" := by
  refine ⟨rfl, fun e => erroToTextLoop_find erroText e, ?_, ?_, by decide⟩
  · intro e h
    have h1 := h ("timeout", "网络连接超时") (by simp [erroText])
    have h2 := h ("Network Error", "请求地址错误") (by simp [erroText])
    have h3 := h ("Failed to fetch", "请求地址错误") (by simp [erroText])
    have h4 := h ("request:fail", "请求地址错误") (by simp [erroText])
    simp only at h1 h2 h3 h4
    simp [erroToText, erroText, erroToTextLoop, h1, h2, h3, h4]
  · intro e
    by_cases t1 : regexTest "timeout" e <;>
      by_cases t2 : regexTest "Network Error" e <;>
        by_cases t3 : regexTest "Failed to fetch" e <;>
          by_cases t4 : regexTest "request:fail" e <;>
            simp [erroToText, erroText, erroToTextLoop, t1, t2, t3, t4]

/-- C8 witness: the classifier applied to a message matching no pattern. -/
theorem erroToText_first_match_witness : erroToText "zzz" = "其他错误" :=
  erroToText_first_match.2.2.1 "zzz" (by decide)

/-- C3 counterexample: on a configuration whose headers define both the first
casing variant, holding the json type, and the fourth, holding the form type,
the reduce of the source selects the form type, the LAST truthy variant,
while the claim predicts the first truthy variant, the json type. -/
theorem contentTypeOf_counterexample :
    contentTypeOf cfgC3 = JValue.str application.form
    ∧ firstTruthyVariant cfgC3 contentTypeVariants = JValue.str application.json
    ∧ application.form ≠ application.json :=
  ⟨rfl, rfl, by decide⟩

/-- C3 amended: for every non-GET configuration the content type used by the
body synthesizer is the LAST truthy value among the four casing variants in
declaration order, equivalently the first truthy one when the variants are
scanned in reverse order; on the counterexample configuration the body is
therefore form-encoded rather than json-encoded. -/
theorem contentTypeOf_last_match :
    (∀ config : JObj,
      contentTypeOf config = firstTruthyVariant config contentTypeVariants.reverse)
    ∧ toBody cfgC3 = Except.ok (jset cfgC3 "body" (JValue.str "a=1")) :=
  ⟨fun _ => rfl, rfl⟩

/-- C4 counterexample: layering an override carrying an empty headers object
over the built-in defaults, exactly what the constructor does for
`new FetchRequest` with such a defaultConfig and what the upload seed does per
call, leaves the empty headers object; the one-level shallow merge predicted
by the claim would instead keep the Accept and Content-Type entries of the
base. -/
theorem headers_merge_counterexample :
    jget (jassign defaultConfigInit [("headers", JValue.obj [])]) "headers"
      = some (JValue.obj [])
    ∧ jget (FetchRequest.create
        { defaultConfig := some [("headers", JValue.obj [])] }).defaultConfig "headers"
      = some (JValue.obj [])
    ∧ JValue.obj [] ≠ JValue.obj
        (jassign [("Accept", JValue.str application.json),
                  ("Content-Type", JValue.str application.json)] []) := by
  refine ⟨rfl, rfl, ?_⟩
  simp [jassign]

/-- C4 amended: at every layering step every key, headers included, is
overwritten wholesale, last write wins: a key provided by the override always
takes its override value, a key absent from the override keeps its base
value, and this same rule governs the construction-time merge of the built-in
defaults with a user default configuration. -/
theorem layering_overwrites_wholesale :
    (∀ (base override : JObj) (k : String), (override.map Prod.fst).Nodup →
      jget (jassign base override) k = (jget override k).or (jget base k))
    ∧ (∀ user : JObj, (user.map Prod.fst).Nodup →
      jget (FetchRequest.create { defaultConfig := some user }).defaultConfig "headers"
        = (jget user "headers").or (jget defaultConfigInit "headers")) := by
  refine ⟨fun base override k h => jget_jassign base override k h, ?_⟩
  intro user h
  exact jget_jassign defaultConfigInit user "headers" h

/-- C4 witness: the wholesale-overwrite rule applied to the counterexample
layering step. -/
theorem layering_overwrites_wholesale_witness :
    jget (jassign defaultConfigInit [("headers", JValue.obj [])]) "headers"
      = (jget [("headers", JValue.obj [])] "headers").or
          (jget defaultConfigInit "headers") :=
  layering_overwrites_wholesale.1 defaultConfigInit
    [("headers", JValue.obj [])] "headers" (by decide)

/-- C5: a verb call merges the positional literal with the generation-time
seed and the normalized fragments left to right, last write wins: the five
plain verbs, having no seed, build exactly the fold of the literal with the
fragments; a fragment url or data silently replaces the positional argument
under any seed; the last label fragment wins; and a bare string fragment
builds the same configuration as its label-object form. -/
theorem createRequest_merge :
    (∀ (m u : String) (d : Option JValue) (args : List CallArg),
      plainVerbConfig m u d args =
        List.foldl jassign
          [("method", JValue.str m), ("url", JValue.str u),
           ("data", d.getD JValue.undef)]
          (args.map labelToConfig))
    ∧ (∀ (m : String) (seed : Option JObj) (u u2 : String) (d : Option JValue),
      jget (createRequestConfig m seed u d [CallArg.cfg [("url", JValue.str u2)]]) "url"
        = some (JValue.str u2))
    ∧ (∀ (m : String) (seed : Option JObj) (u : String) (d : Option JValue) (d2 : JValue),
      jget (createRequestConfig m seed u d [CallArg.cfg [("data", d2)]]) "data"
        = some d2)
    ∧ (∀ (m : String) (seed : Option JObj) (u : String) (d : Option JValue),
      jget (createRequestConfig m seed u d
          [CallArg.cfg [("label", JValue.str "A")],
           CallArg.cfg [("label", JValue.str "B")]]) "label"
        = some (JValue.str "B"))
    ∧ (∀ (m : String) (seed : Option JObj) (u : String) (d : Option JValue) (s : String),
      createRequestConfig m seed u d [CallArg.label s]
        = createRequestConfig m seed u d [CallArg.cfg [("label", JValue.str s)]]) := by
  refine ⟨fun m u d args => rfl, ?_, ?_, ?_, fun m seed u d s => rfl⟩
  · intro m seed u u2 d
    simp only [createRequestConfig, List.map, labelToConfig, List.foldl, jassign]
    exact jget_jset_self _ _ _
  · intro m seed u d d2
    simp only [createRequestConfig, List.map, labelToConfig, List.foldl, jassign]
    exact jget_jset_self _ _ _
  · intro m seed u d
    simp only [createRequestConfig, List.map, labelToConfig, List.foldl, jassign]
    exact jget_jset_self _ _ _

/-- C2 counterexample: with the default empty host and apiPath, a relative
per-call url reaches the merged configuration unchanged, and the final merged
url does not start with http. -/
theorem merged_url_counterexample :
    jget (frDefault.mergedConfig [("url", JValue.str "users")]) "url"
      = some (JValue.str "users")
    ∧ testHttp "users" = false :=
  ⟨rfl, rfl⟩

/-- C2 amended: the final merged url is the layered url itself when that url
already matches the scheme test, and otherwise is host and apiPath prepended
to it exactly once, the prepending being applied to the url read from the
fully layered per-call configuration, hence after every override fragment;
the result starts with http whenever the layered url already does or the
base path does; the merged configuration exposes this resolved url provided
the instance defaults do not themselves carry a url key. -/
theorem merged_url_amended :
    (∀ (fr : FetchRequest) (configs : JObj), jget fr.defaultConfig "url" = none →
      jget (fr.mergedConfig configs) "url" = some (JValue.str (fr.resolveUrl configs)))
    ∧ (∀ (fr : FetchRequest) (configs : JObj),
      fr.resolveUrl configs =
        if testHttp (urlOf configs) then urlOf configs
        else fr.baseURL ++ urlOf configs)
    ∧ (∀ (fr : FetchRequest) (configs : JObj),
      testHttp (urlOf configs) = true ∨ testHttp fr.baseURL = true →
        testHttp (fr.resolveUrl configs) = true)
    ∧ (∀ (fr : FetchRequest) (m : String) (seed : Option JObj) (u : String)
        (d : Option JValue) (args : List CallArg),
      fr.resolveUrl (createRequestConfig m seed u d args) =
        if testHttp (urlOf (createRequestConfig m seed u d args))
        then urlOf (createRequestConfig m seed u d args)
        else fr.baseURL ++ urlOf (createRequestConfig m seed u d args)) := by
  refine ⟨?_, fun fr configs => rfl, ?_, fun fr m seed u d args => rfl⟩
  · intro fr configs h
    unfold FetchRequest.mergedConfig
    rw [jget_jassign_not_mem _ _ _ (not_mem_jremove_map configs "url"),
      jget_jassign_not_mem _ _ _ ((jget_eq_none_iff _ _).mp h)]
    simp [jget]
  · intro fr configs h
    unfold FetchRequest.resolveUrl
    cases htest : testHttp (urlOf configs) with
    | true => simp [htest]
    | false =>
      rcases h with h | h
      · rw [htest] at h; cases h
      · simp only [htest, Bool.false_eq_true, if_false]
        exact testHttp_append fr.baseURL (urlOf configs) h

/-- C2 witness: the resolution rule exercised on an absolute per-call url
over the default instance. -/
theorem merged_url_amended_witness :
    jget frDefault.defaultConfig "url" = none
    ∧ jget (frDefault.mergedConfig [("url", JValue.str "https://e/u")]) "url"
        = some (JValue.str (frDefault.resolveUrl [("url", JValue.str "https://e/u")]))
    ∧ testHttp (frDefault.resolveUrl [("url", JValue.str "https://e/u")]) = true :=
  ⟨rfl, merged_url_amended.1 frDefault [("url", JValue.str "https://e/u")] rfl,
   merged_url_amended.2.2.1 frDefault [("url", JValue.str "https://e/u")]
     (Or.inl (by decide))⟩

/-- C6: for every configuration whose method is exactly the string GET, body
synthesis never throws and never touches body: when the serialized data is
empty the configuration is returned unchanged, and otherwise the query
string is appended to the url after a single question-mark separator; the
serializer flattens nested mappings into bracket notation. -/
theorem toBody_get_query (cfg : JObj) (h : isGET cfg = true) :
    toBody cfg = Except.ok
      (if qsStringify (jgetD cfg "data") = "" then cfg
       else jset cfg "url"
         (JValue.str (jsToString (jgetD cfg "url") ++ "?" ++ qsStringify (jgetD cfg "data"))))
    ∧ (∀ cfg2, toBody cfg = Except.ok cfg2 → jget cfg2 "body" = jget cfg "body")
    ∧ qsStringify (JValue.obj [("a", JValue.obj [("b", JValue.str "1")]),
        ("c", JValue.str "2")]) = "a[b]=1&c=2" := by
  refine ⟨?_, ?_, by decide⟩
  · by_cases hp : qsStringify (jgetD cfg "data") = "" <;> simp [toBody, h, hp]
  · intro cfg2 hok
    by_cases hp : qsStringify (jgetD cfg "data") = ""
    · simp [toBody, h, hp] at hok
      rw [← hok]
    · simp [toBody, h, hp] at hok
      rw [← hok]
      exact jget_jset_ne cfg "url" "body" _ (by decide)

/-- C6 witness: the GET path exercised on a concrete configuration with a
nonempty mapping as data. -/
theorem toBody_get_query_witness :
    isGET cfgC6 = true
    ∧ toBody cfgC6 = Except.ok
        (if qsStringify (jgetD cfgC6 "data") = "" then cfgC6
         else jset cfgC6 "url"
           (JValue.str (jsToString (jgetD cfgC6 "url") ++ "?"
             ++ qsStringify (jgetD cfgC6 "data")))) :=
  ⟨rfl, (toBody_get_query cfgC6 rfl).1⟩

/-- C10: whenever body synthesis returns, it returns its argument with at
most one field modified: every key other than url and body is unchanged;
under GET the body is unchanged and the whole configuration is unchanged
when the serialized query string is empty; under any other method the url is
unchanged. -/
theorem toBody_frame (cfg cfg2 : JObj) (h : toBody cfg = Except.ok cfg2) :
    (∀ k, k ≠ "url" → k ≠ "body" → jget cfg2 k = jget cfg k)
    ∧ (isGET cfg = true → jget cfg2 "body" = jget cfg "body"
        ∧ (qsStringify (jgetD cfg "data") = "" → cfg2 = cfg))
    ∧ (isGET cfg = false → jget cfg2 "url" = jget cfg "url") := by
  by_cases hg : isGET cfg = true
  · by_cases hp : qsStringify (jgetD cfg "data") = ""
    · simp only [toBody, hg, if_true, hp, Except.ok.injEq] at h
      subst h
      exact ⟨fun k _ _ => rfl, fun _ => ⟨rfl, fun _ => rfl⟩,
        fun hf => by simp [hg] at hf⟩
    · simp only [toBody, hg, if_true, hp, if_false, Except.ok.injEq] at h
      subst h
      exact ⟨fun k hk1 _ => jget_jset_ne cfg "url" k _ hk1,
        fun _ => ⟨jget_jset_ne cfg "url" "body" _ (by decide),
          fun hpp => absurd hpp hp⟩,
        fun hf => by simp [hg] at hf⟩
  · have hg2 : isGET cfg = false := by
      cases hgv : isGET cfg
      · rfl
      · exact absurd hgv hg
    by_cases ht : jsTruthy (contentTypeOf cfg) = true
    · cases happ : applicationToBodyFun (jsToString (contentTypeOf cfg)) with
      | none => simp [toBody, hg2, ht, happ] at h
      | some f =>
        simp only [toBody, hg2] at h
        simp only [Bool.false_eq_true, if_false, ht, if_true, happ,
          Except.ok.injEq] at h
        subst h
        exact ⟨fun k _ hk2 => jget_jset_ne cfg "body" k _ hk2,
          fun hgg => absurd hgg hg,
          fun _ => jget_jset_ne cfg "body" "url" _ (by decide)⟩
    · have ht2 : jsTruthy (contentTypeOf cfg) = false := by
        cases htv : jsTruthy (contentTypeOf cfg)
        · rfl
        · exact absurd htv ht
      cases hfd : getFormData (jgetD cfg "data") with
      | error e => simp [toBody, hg2, ht2, hfd, Except.map] at h
      | ok fd =>
        simp only [toBody, hg2, Bool.false_eq_true, if_false, ht2, hfd,
          Except.map, Except.ok.injEq] at h
        subst h
        exact ⟨fun k _ hk2 => jget_jset_ne cfg "body" k _ hk2,
          fun hgg => absurd hgg hg,
          fun _ => jget_jset_ne cfg "body" "url" _ (by decide)⟩

/-- C10 witness: the frame conditions exercised on a POST configuration with
passthrough fields. -/
theorem toBody_frame_witness :
    toBody cfgC10 = Except.ok cfgC10body
    ∧ jget cfgC10body "label" = jget cfgC10 "label"
    ∧ jget cfgC10body "url" = jget cfgC10 "url" :=
  ⟨rfl, (toBody_frame cfgC10 cfgC10body rfl).1 "label" (by decide) (by decide),
   (toBody_frame cfgC10 cfgC10body rfl).2.2 rfl⟩

/-- C7 counterexample: a non-GET configuration whose headers carry a truthy
but unrecognized content type, where no known content type is found, does not
fall back to the multipart writer: the lookup into the serializer table is
undefined and the source calls it, a synchronous TypeError. -/
theorem toBody_unknown_content_type_counterexample :
    isGET cfgC7bad = false
    ∧ jsTruthy (contentTypeOf cfgC7bad) = true
    ∧ applicationToBodyFun (jsToString (contentTypeOf cfgC7bad)) = none
    ∧ toBody cfgC7bad = Except.error "TypeError: toBodyFun is not a function" :=
  ⟨rfl, rfl, rfl, rfl⟩

/-- C7 amended: for every non-GET configuration where no TRUTHY content-type
value at all is found among the four casing variants, the synthesizer sets
the body to the multipart payload written from data: a prebuilt payload
passes through unchanged, an object is flattened into one entry per leaf
field under bracketed keys with file values as opaque leaves; a truthy but
unrecognized content type instead throws. -/
theorem toBody_multipart_fallback :
    (∀ (cfg : JObj) (fd : JValue), isGET cfg = false →
      jsTruthy (contentTypeOf cfg) = false →
      getFormData (jgetD cfg "data") = Except.ok fd →
      toBody cfg = Except.ok (jset cfg "body" fd))
    ∧ (∀ es : List (String × JValue),
      getFormData (JValue.formData es) = Except.ok (JValue.formData es))
    ∧ (∀ fields : List (String × JValue),
      getFormData (JValue.obj fields)
        = Except.ok (JValue.formData (writeFields fields "")))
    ∧ (∀ (fields : List (String × JValue)) (key : String),
      (writeFields fields key).length = leafCountFields fields)
    ∧ writeFields [("outer", JValue.obj [("inner", JValue.str "v")]),
        ("f", JValue.file "f1")] ""
      = [("outer[inner]", JValue.str "v"), ("f", JValue.file "f1")] := by
  refine ⟨?_, fun es => rfl, fun fields => rfl,
    fun fields key => writeFields_length fields key, rfl⟩
  intro cfg fd hg ht hfd
  simp [toBody, hg, ht, hfd, Except.map]

/-- C7 witness: the fallback exercised on an upload-style configuration with
nested data and a file leaf. -/
theorem toBody_multipart_fallback_witness :
    isGET cfgC7ok = false
    ∧ jsTruthy (contentTypeOf cfgC7ok) = false
    ∧ getFormData (jgetD cfgC7ok "data") = Except.ok fdC7
    ∧ toBody cfgC7ok = Except.ok (jset cfgC7ok "body" fdC7) :=
  ⟨rfl, rfl, rfl, toBody_multipart_fallback.1 cfgC7ok fdC7 rfl rfl rfl⟩

/-- C1: with the identity interceptors of the core pipeline, whenever the
race of the transport call against the timeout timer rejects, the request
call still resolves: its envelope carries the rejection reason in error and
the classified text in errorText, the time object carries the start, end and
total fields built from the two clock readings taken around the transport
call, and under a monotone clock the recorded end is at least the recorded
start. -/
theorem request_resolves_on_rejection (fr : FetchRequest)
    (transport : TransportBehavior) (startT endT : Nat) (configs : JObj)
    (run : RequestFunctionRun) (e : String)
    (hrf : FetchRequest.requestFunction transport (fr.mergedConfig configs)
      = Except.ok run)
    (hout : run.outcome = Except.error e)
    (hclock : startT ≤ endT) :
    fr.request transport startT endT configs = Except.ok
      { envelope := jassign [("time", statisticalTime startT endT)] (classifyRejection e),
        aborted := run.aborted, dispatched := run.dispatched }
    ∧ (∀ rr, fr.request transport startT endT configs = Except.ok rr →
        jget rr.envelope "error" = some (JValue.str e)
        ∧ jget rr.envelope "errorText" = some (JValue.str (erroToText e))
        ∧ timeField rr.envelope "start" = some (JValue.num startT)
        ∧ timeField rr.envelope "end" = some (JValue.num endT)
        ∧ timeField rr.envelope "total"
            = some (JValue.num ((endT : Int) - (startT : Int)))
        ∧ (∀ a b : Int, timeField rr.envelope "start" = some (JValue.num a) →
            timeField rr.envelope "end" = some (JValue.num b) → a ≤ b)) := by
  have h1 : fr.request transport startT endT configs = Except.ok
      { envelope := jassign [("time", statisticalTime startT endT)] (classifyRejection e),
        aborted := run.aborted, dispatched := run.dispatched } := by
    simp [FetchRequest.request, hrf, hout]
  refine ⟨h1, ?_⟩
  intro rr hrr
  rw [h1] at hrr
  injection hrr with h2
  subst h2
  refine ⟨by simp [jassign, jset, jget, classifyRejection],
    by simp [jassign, jset, jget, classifyRejection],
    by simp [timeField, jassign, jset, jget, classifyRejection, statisticalTime],
    by simp [timeField, jassign, jset, jget, classifyRejection, statisticalTime],
    by simp [timeField, jassign, jset, jget, classifyRejection, statisticalTime],
    ?_⟩
  intro a b ha hb
  simp [timeField, jassign, jset, jget, classifyRejection, statisticalTime] at ha hb
  omega

/-- C1 witness: the error path exercised with an immediately rejecting
transport on the default instance. -/
theorem request_resolves_on_rejection_witness :
    FetchRequest.requestFunction transportC1 (frDefault.mergedConfig cfgC1)
      = Except.ok runC1
    ∧ runC1.outcome = Except.error "Network Error"
    ∧ (3 : Nat) ≤ 5
    ∧ frDefault.request transportC1 3 5 cfgC1 = Except.ok
        { envelope := jassign [("time", statisticalTime 3 5)]
            (classifyRejection "Network Error"),
          aborted := runC1.aborted, dispatched := runC1.dispatched } :=
  ⟨rfl, rfl, by decide,
   (request_resolves_on_rejection frDefault transportC1 3 5 cfgC1 runC1
     "Network Error" rfl rfl (by decide)).1⟩

/-- C9: when the transport never settles, the timer of the race fires: the
race rejects with the request-timeout sentinel and aborts the controller,
the signal attached to the dispatched configuration is marked aborted, and
the call resolves with the timeout category text as errorText; a transport
settling no earlier than the configured timeout is likewise beaten by the
timer; the built-in default timeout is 5000 time units; and the sentinel
classifies to the timeout category text. -/
theorem request_timeout_rejects (fr : FetchRequest) (startT endT : Nat)
    (configs : JObj) (cfg2 : JObj)
    (htb : toBody (fr.mergedConfig configs) = Except.ok cfg2) :
    raceWithTimeout (timeoutOf cfg2) none =
      { outcome := Except.error "request timeout", aborted := true }
    ∧ FetchRequest.requestFunction none (fr.mergedConfig configs) = Except.ok
        { dispatched := jset cfg2 "signal" (JValue.obj [("aborted", JValue.jbool true)]),
          outcome := Except.error "request timeout", aborted := true }
    ∧ (∀ rr, fr.request none startT endT configs = Except.ok rr →
        rr.aborted = true
        ∧ jget rr.dispatched "signal"
            = some (JValue.obj [("aborted", JValue.jbool true)])
        ∧ jget rr.envelope "error" = some (JValue.str "request timeout")
        ∧ jget rr.envelope "errorText" = some (JValue.str "网络连接超时"))
    ∧ (∀ (t tmo : Nat) (r : Except String JValue), tmo ≤ t →
        raceWithTimeout tmo (some (t, r)) =
          { outcome := Except.error "request timeout", aborted := true })
    ∧ jget defaultConfigInit "timeout" = some (JValue.num 5000)
    ∧ erroToText "request timeout" = "网络连接超时" := by
  have hreq : fr.request none startT endT configs = Except.ok
      { envelope := jassign [("time", statisticalTime startT endT)]
          (classifyRejection "request timeout"),
        aborted := true,
        dispatched := jset cfg2 "signal" (JValue.obj [("aborted", JValue.jbool true)]) } := by
    simp [FetchRequest.request, FetchRequest.requestFunction, htb, raceWithTimeout]
  refine ⟨rfl, by simp [FetchRequest.requestFunction, htb, raceWithTimeout], ?_, ?_, rfl, rfl⟩
  · intro rr hrr
    rw [hreq] at hrr
    injection hrr with h2
    subst h2
    refine ⟨rfl, jget_jset_self cfg2 "signal" _, ?_, ?_⟩
    · simp [jassign, jset, jget, classifyRejection]
    · simp [jassign, jset, jget, classifyRejection, erroToText, erroText,
        erroToTextLoop, regexTest, occursIn, leadsWith]
  · intro t tmo r hto
    simp [raceWithTimeout, Nat.not_lt.mpr hto]

/-- C9 witness: a call on the default instance whose transport never
settles. -/
theorem request_timeout_rejects_witness :
    toBody (frDefault.mergedConfig cfgC9) = Except.ok cfgC9body
    ∧ raceWithTimeout (timeoutOf cfgC9body) none =
        { outcome := Except.error "request timeout", aborted := true }
    ∧ jget defaultConfigInit "timeout" = some (JValue.num 5000) :=
  ⟨rfl, (request_timeout_rejects frDefault 0 1 cfgC9 cfgC9body rfl).1,
   (request_timeout_rejects frDefault 0 1 cfgC9 cfgC9body rfl).2.2.2.2.1⟩
